import Mathlib

/-!
Verification of the label-generation pipeline of `generate_label2.py`
(the helper functions `create_centered_tspan_elements`,
`replace_template_variables`, `sanitize_filename`,
`contains_non_english_chars` and the row pipeline
`generate_label2_from_dataframe`).  The identically named copies of
`sanitize_filename` and `contains_non_english_chars` in
`generate_law_labels.py` are byte-for-byte the same functions, so one
embedding covers both files.

Python strings are modelled as Lean `String` (a list of unicode code
points, matching Python's code-point view).  Python floats are modelled
as exact rationals: every number the program manipulates is a decimal
(`15.99` and its multiples), where binary floating point and exact
rational arithmetic agree after the program's 2-decimal formatting.
Cells of the pandas DataFrame are `Option String` (`none` = NaN), the
external cairosvg converter is an explicit function parameter
`convert : String → Option (List Nat)` (`none` = conversion failure,
byte strings as lists), and `hasCairo` models the module-level
`HAS_CAIROSVG` flag.
-/

/-- Python `str.strip()` whitespace set (unicode whitespace). -/
def isPySpace (c : Char) : Bool :=
  c ∈ [' ', '\t', '\n', '\x0b', '\x0c', '\r', '\x1c', '\x1d', '\x1e', '\x1f',
       '\u0085', ' ', ' ', ' ', ' ', ' ', ' ', '　']
  || (0x2000 ≤ c.toNat && c.toNat ≤ 0x200a)

/-- Python `str.strip()` on a list of characters. -/
def pyStripL (l : List Char) : List Char :=
  ((l.dropWhile isPySpace).reverse.dropWhile isPySpace).reverse

/-- Python `str.strip()`. -/
def pyStripS (s : String) : String :=
  ⟨pyStripL s.data⟩

/-- Python `str.upper()`; `Char.toUpper` maps a-z to A-Z and leaves other
characters unchanged, which agrees with Python on the ASCII range used here. -/
def pyUpper (s : String) : String :=
  ⟨s.data.map Char.toUpper⟩

/-- Python `str.split(sep)` for a single-character separator
(`''.split` returns `['']`, as in Python). -/
def splitOnChar (sep : Char) : List Char → List (List Char)
  | [] => [[]]
  | c :: rest =>
    match splitOnChar sep rest with
    | [] => [[]]
    | l :: ls => if c = sep then [] :: l :: ls else (c :: l) :: ls

/-- One step of Python `str.replace(pat, repl)` (left-to-right,
non-overlapping), driven by explicit fuel so that the kernel can
evaluate it; `replaceAll` below always supplies enough fuel. -/
def replaceAllFuel (pat repl : List Char) : Nat → List Char → List Char
  | _, [] => []
  | 0, s => s
  | fuel + 1, c :: rest =>
    if pat.isPrefixOf (c :: rest) && !pat.isEmpty then
      repl ++ replaceAllFuel pat repl fuel (rest.drop (pat.length - 1))
    else
      c :: replaceAllFuel pat repl fuel rest

/-- Python `str.replace(pat, repl)` on character lists (all occurrences,
left to right, non-overlapping). -/
def replaceAll (pat repl s : List Char) : List Char :=
  replaceAllFuel pat repl s.length s

/-- Python `str.replace` on strings. -/
def strReplace (s pat repl : String) : String :=
  ⟨replaceAll pat.data repl.data s.data⟩

/-- `text.replace('\\n', '\n').split('\n')`: normalize the literal
two-character escape sequence backslash-n to a newline, then split.
Used identically by the layout engine and by the pipeline's line count. -/
def pyLines (s : String) : List (List Char) :=
  splitOnChar '\n' (replaceAll ['\\', 'n'] ['\n'] s.data)

/-- Python `f'{y:.2f}'` on the exact rational value of `y`
(round to two decimals; exact for the decimal values the program uses). -/
def fmt2 (q : ℚ) : String :=
  (if q < 0 then "-" else "")
    ++ toString (⌊|q| * 100 + 1 / 2⌋ / 100)
    ++ "."
    ++ (if ⌊|q| * 100 + 1 / 2⌋ % 100 < 10 then "0" else "")
    ++ toString (⌊|q| * 100 + 1 / 2⌋ % 100)

/-- Python `f'{y}'` default formatting for the first-line branch of the
layout loop.  There the cursor still holds its initial integer value `0`,
so Python prints an integer; on integers this prints the integer. -/
def fmtIntLike (q : ℚ) : String :=
  if q.den = 1 then toString q.num else fmt2 q

/-- The loop body of `create_centered_tspan_elements`: builds the list
`tspan_elements`, carrying the line index `i` and the running cursor
`current_y` (starts at 0, advances by `line_height` for every line,
including blank ones). -/
def tspanElems (line_height : ℚ) : Nat → ℚ → List (List Char) → List String
  | _, _, [] => []
  | i, current_y, line :: rest =>
    if pyStripL line = [] then
      tspanElems line_height (i + 1) (current_y + line_height) rest
    else
      ("<tspan x=\"0\" y=\""
          ++ (if i = 0 then fmtIntLike current_y else fmt2 current_y)
          ++ "\">" ++ String.mk (pyStripL line) ++ "</tspan>")
        :: tspanElems line_height (i + 1) (current_y + line_height) rest

/-- `create_centered_tspan_elements(text, line_height)`. -/
def create_centered_tspan_elements (text : String) (line_height : ℚ) : String :=
  String.join (tspanElems line_height 0 0 (pyLines text))

/-- The `non_english_chars` blacklist exactly as the Python parser reads
it from the source file.  The entries commented "Chinese quotation
marks" and "Chinese single quotes" in the source are in fact the plain
ASCII double quote (twice) and — through an accidental triple-quoted
string `''', '''` — the two-character string comma-space. -/
def non_english_chars : List String :=
  ["（", "）",          -- Chinese parentheses
   "【", "】",          -- Chinese brackets
   "「", "」",          -- Chinese quotation marks
   "『", "』",          -- Double angle brackets
   "《", "》",          -- Chinese book title marks
   "，", "。",          -- Chinese comma and period
   "：", "；",          -- Chinese colon and semicolon
   "\"", "\"",          -- (intended: curly double quotes)
   ", ",                -- (intended: curly single quotes)
   "、",                -- Chinese enumeration comma
   "％"]                -- Full-width percent

/-- The allow-list of non-ASCII characters accepted by the validator. -/
def allowedUnicode : List Char :=
  ['°', '±', '×', '÷', '®', '™', '©']

/-- Substring containment (Python `pat in text`). -/
def isSubstrOf (pat s : List Char) : Bool :=
  match s with
  | [] => pat.isEmpty
  | _ :: rest => pat.isPrefixOf s || isSubstrOf pat rest

/-- `contains_non_english_chars(text)`: a blacklist substring check
followed by a scan flagging any character above code point 127 that is
not in the allow-list. -/
def contains_non_english_chars (text : String) : Bool :=
  non_english_chars.any (fun pat => isSubstrOf pat.data text.data)
  || text.data.any (fun c => 127 < c.toNat && !(allowedUnicode.contains c))

/-- Characters removed by `sanitize_filename`'s regex `[<>:"/\\|?*\n\r]`. -/
def filenameBadChars : List Char :=
  ['<', '>', ':', '"', '/', '\\', '|', '?', '*', '\n', '\r']

/-- `sanitize_filename(text)`: strip the unsafe characters, replace
spaces with underscores, truncate to 50 characters. -/
def sanitize_filename (text : String) : String :=
  ⟨(((text.data.filter (fun c => !(filenameBadChars.contains c))).map
      (fun c => if c = ' ' then '_' else c)).take 50)⟩

/-- The `code_number` replacement value built inside
`replace_template_variables`: `REG.NO.` plus, when the trimmed
`per_number` is non-empty, a second `PER.NO.` line as two
vertically-offset tspans. -/
def code_number_content (reg_number per_number : String) : String :=
  if pyStripS per_number ≠ "" then
    "<tspan x=\"0\" dy=\"-8\">" ++ ("REG.NO." ++ reg_number)
      ++ "</tspan><tspan x=\"0\" dy=\"16\">" ++ ("PER.NO." ++ pyStripS per_number)
      ++ "</tspan>"
  else
    "REG.NO." ++ reg_number

/-- The `origin_country` replacement value: trimmed, upper-cased origin
code mapped through `{'CN': 'CHINA', 'VN': 'VIETNAM'}` with the code
itself as the default. -/
def origin_country_value (origin : String) : String :=
  if pyUpper (pyStripS origin) = "CN" then "CHINA"
  else if pyUpper (pyStripS origin) = "VN" then "VIETNAM"
  else pyUpper (pyStripS origin)

/-- `replace_template_variables(svg_content, material_text, reg_number,
per_number, firm, origin)`. -/
def replace_template_variables
    (svg_content material_text reg_number per_number firm origin : String) : String :=
  strReplace
    (strReplace
      (strReplace
        (strReplace svg_content "\x7b\x7bcode_number\x7d\x7d"
          (code_number_content reg_number per_number))
        "\x7b\x7bmaterial_text\x7d\x7d"
        (create_centered_tspan_elements material_text ((1599 : ℚ) / 100)))
      "\x7b\x7bfirm\x7d\x7d" (pyStripS firm))
    "\x7b\x7borigin_country\x7d\x7d" (origin_country_value origin)

/-- `MAX_MATERIAL_LINES`. -/
def MAX_MATERIAL_LINES : Nat := 15

/-- A DataFrame: the number of columns and the rows, each row a list of
cells (`none` models a NaN/missing cell).  The first six columns are,
positionally: identifier, composition text, registration number, permit
number, firm, origin code; the code requires at least three columns. -/
structure DataFrame where
  ncols : Nat
  rows : List (List (Option String))

/-- `str(row[col]) if pd.notna(row[col]) else ""` for column `i`. -/
def cellStr (r : List (Option String)) (i : Nat) : String :=
  (r.getD i none).getD ""

/-- The record identifier: column 0, falling back to `label_<index>`
when the cell is NaN. -/
def identifierOf (r : List (Option String)) (index : Nat) : String :=
  match r.getD 0 none with
  | some s => s
  | none => "label_" ++ toString index

/-- The non-blank line count the pipeline checks against
`MAX_MATERIAL_LINES` (same normalization and trimming as the layout
engine). -/
def nonEmptyLineCount (materials_text : String) : Nat :=
  ((pyLines materials_text).filter (fun line => !(pyStripL line).isEmpty)).length

/-- The body of the `for index, row in df.iterrows()` loop: produces the
documents and warnings contributed by one row.  `convert` is the
cairosvg collaborator (`convert_svg_bytes_to_pdf_bytes`); `hasCairo`
models `HAS_CAIROSVG`. -/
def processRow (template_content : String) (hasCairo : Bool)
    (convert : String → Option (List Nat)) (ncols : Nat) (index : Nat)
    (r : List (Option String)) : List (String × List Nat) × List String :=
  let materials_text := cellStr r 1
  let reg_no := cellStr r 2
  let identifier := identifierOf r index
  let per_no := if 3 < ncols then cellStr r 3 else ""
  let firm := if 4 < ncols then cellStr r 4 else ""
  let origin := if 5 < ncols then cellStr r 5 else ""
  if materials_text = "" ∨ reg_no = "" then ([], [])
  else if MAX_MATERIAL_LINES < nonEmptyLineCount materials_text then
    ([], [identifier ++ " label is not generated, reason: material text larger than 15 lines."])
  else if contains_non_english_chars materials_text then
    ([], [identifier ++ " label is not generated, reason: material text is not English input."])
  else if contains_non_english_chars reg_no then
    ([], [identifier ++ " label is not generated, reason: REG # is not English input."])
  else if per_no ≠ "" ∧ contains_non_english_chars per_no then
    ([], [identifier ++ " label is not generated, reason: PER # is not English input."])
  else
    let svg_content :=
      replace_template_variables template_content materials_text reg_no per_no firm origin
    let pdf_filename := sanitize_filename identifier ++ "-label2.pdf"
    if hasCairo then
      match convert svg_content with
      | some pdf_bytes =>
        if pdf_bytes = [] then ([], []) else ([(pdf_filename, pdf_bytes)], [])
      | none => ([], [])
    else ([], [])

/-- The row loop, accumulating `pdf_files` and `warnings` in row order. -/
def genRows (template_content : String) (hasCairo : Bool)
    (convert : String → Option (List Nat)) (ncols : Nat) :
    Nat → List (List (Option String)) → List (String × List Nat) × List String
  | _, [] => ([], [])
  | index, r :: rest =>
    let rowOut := processRow template_content hasCairo convert ncols index r
    let restOut := genRows template_content hasCairo convert ncols (index + 1) rest
    (rowOut.1 ++ restOut.1, rowOut.2 ++ restOut.2)

/-- `generate_label2_from_dataframe(template_content, df)`, with the
external converter made explicit. -/
def generate_label2_from_dataframe (template_content : String) (df : DataFrame)
    (hasCairo : Bool) (convert : String → Option (List Nat)) :
    List (String × List Nat) × List String :=
  genRows template_content hasCairo convert df.ncols 0 df.rows

/-- The rows with both `compositionText` (column 1) and
`registrationNumber` (column 2) non-empty. -/
def countValidRows (df : DataFrame) : Nat :=
  (df.rows.filter (fun r => !(cellStr r 1 == "") && !(cellStr r 2 == ""))).length

/-- Spec-side layout fragment for claim C3 (amended): line `i` of the
normalized input, trimmed; blank lines yield no fragment; the fragment
for line index 0 — whose offset is always 0 — is formatted as the
integer `0`, fragments for later lines carry the 2-decimal formatted
offset `i * lineHeight`. -/
def specLayoutFrag (lh : ℚ) (p : Nat × List Char) : Option String :=
  if pyStripL p.2 = [] then none
  else
    some ("<tspan x=\"0\" y=\""
        ++ (if p.1 = 0 then "0" else fmt2 ((p.1 : ℚ) * lh))
        ++ "\">" ++ String.mk (pyStripL p.2) ++ "</tspan>")

/-- The `y="..."` attribute of a rendered tspan fragment (the fourth
quote-delimited field). -/
def yAttrOf (frag : String) : String :=
  ⟨(splitOnChar '"' frag.data).getD 3 []⟩

/-- An offset string formatted as a plain (non-negative) integer. -/
def isIntegerFormatted (s : String) : Bool :=
  !s.data.isEmpty && s.data.all Char.isDigit

/-- An offset string in fixed 2-decimal-place format. -/
def isTwoDecimalFormatted (s : String) : Bool :=
  match splitOnChar '.' s.data with
  | [a, b] => !a.isEmpty && a.all Char.isDigit && (b.length == 2) && b.all Char.isDigit
  | _ => false

/-- Claim C3 as stated, as a checkable property of one layout run: the
first EMITTED fragment uses an integer-formatted offset and all
subsequent emitted fragments use 2-decimal offsets. -/
def claimC3FormatsOk (text : String) (lh : ℚ) : Bool :=
  match tspanElems lh 0 0 (pyLines text) with
  | [] => true
  | f :: rest =>
    isIntegerFormatted (yAttrOf f) && rest.all (fun g => isTwoDecimalFormatted (yAttrOf g))

/-- A converter that always succeeds with one byte (a run in which
cairosvg is installed and every conversion works). -/
def cvSome7 : String → Option (List Nat) := fun _ => some [7]

/-- A converter that always fails (cairosvg present, conversion fails). -/
def cvNone : String → Option (List Nat) := fun _ => none

/-- A row with identifier, composition text and registration number. -/
def rowValid : List (Option String) := [some "id", some "A", some "R"]

/-- A row whose composition-text cell is NaN. -/
def rowMissing : List (Option String) := [some "x", none, some "R"]

/-- A 16-line composition text (one over `MAX_MATERIAL_LINES`). -/
def mat16 : String :=
  "1\n2\n3\n4\n5\n6\n7\n8\n9\n10\n11\n12\n13\n14\n15\n16"

/-- A row whose composition text has 16 non-blank lines. -/
def row16 : List (Option String) := [some "id", some mat16, some "R"]

/-- A row whose permit cell is a single ideographic space (U+3000):
non-empty, whitespace-only, and above code point 127. -/
def rowIdeoPer : List (Option String) := [some "id", some "A", some "R", some "　"]

/-- A two-row dataset: one valid row, one with a missing required field. -/
def dfMixed : DataFrame := ⟨3, [rowValid, rowMissing]⟩

/-- A one-row dataset whose single row is valid. -/
def dfValid1 : DataFrame := ⟨3, [rowValid]⟩

/-- Spec-side validator for claim C2, following the claim's words: the
blacklist of full-width/CJK punctuation with genuine curly quotes, or
any character above code point 127 outside the allow-list. -/
def claimBlacklistChars : List Char :=
  ['（', '）', '【', '】', '「', '」', '『', '』', '《', '》',
   '，', '。', '：', '；', '“', '”', '‘', '’', '％']

/-- Spec-side classification "unsafe" for claim C2. -/
def claimUnsafe (s : String) : Bool :=
  s.data.any (fun c => claimBlacklistChars.contains c)
  || s.data.any (fun c => decide (127 < c.toNat) && !(allowedUnicode.contains c))

/-- Spec-side safe-character predicate for claim C9: printable ASCII
(0x20 to 0x7E) plus the allow-list of symbols. -/
def claimPrintableSafe (s : String) : Bool :=
  s.data.all (fun c =>
    (decide (0x20 ≤ c.toNat) && decide (c.toNat ≤ 0x7e)) || allowedUnicode.contains c)

/-- Spec-side `origin_country` mapping for claim C7, following the
claim's words: trim and upper-case, empty yields empty, `CN` and `VN`
map through the two-entry table, anything else passes through. -/
def specOriginCountry (origin : String) : String :=
  if pyUpper (pyStripS origin) = "" then ""
  else if pyUpper (pyStripS origin) = "CN" then "CHINA"
  else if pyUpper (pyStripS origin) = "VN" then "VIETNAM"
  else pyUpper (pyStripS origin)

/-- C2: the source's blacklist literally contains the ASCII double quote
and the two-character string comma-space (mangled curly quotes), so the
code flags plain ASCII input that the claim classifies as safe. -/
theorem C2_ascii_blacklist_bug :
    contains_non_english_chars "\"" = true ∧ claimUnsafe "\"" = false
    ∧ contains_non_english_chars "B, C" = true ∧ claimUnsafe "B, C" = false := by
  decide

/-- C9 (amended): every string the validator classifies as safe consists
exclusively of characters with code point at most 127 (all of ASCII,
including control characters) plus the allow-list symbols. -/
theorem C9_safe_is_ascii_or_allowed (s : String)
    (h : contains_non_english_chars s = false) :
    s.data.all (fun c => decide (c.toNat ≤ 127) || allowedUnicode.contains c) = true := by
  rw [List.all_eq_true]
  intro c hc
  by_cases hle : c.toNat ≤ 127
  · simp [hle]
  · have h127 : 127 < c.toNat := by omega
    simp only [contains_non_english_chars, Bool.or_eq_false_iff] at h
    obtain ⟨-, h2⟩ := h
    cases hal : allowedUnicode.contains c with
    | true => simp [hal]
    | false =>
      exfalso
      have hx : (s.data.any (fun c => 127 < c.toNat && !(allowedUnicode.contains c))) = true :=
        List.any_eq_true.mpr ⟨c, hc, by rw [hal]; simp [h127]⟩
      rw [hx] at h2
      simp at h2

theorem C9_safe_is_ascii_or_allowed_witness :
    contains_non_english_chars "Lab 12" = false
    ∧ "Lab 12".data.all (fun c => decide (c.toNat ≤ 127) || allowedUnicode.contains c) = true :=
  ⟨by decide, C9_safe_is_ascii_or_allowed "Lab 12" (by decide)⟩

/-- C9 counterexample: the newline-separated text "A\nB" is classified
safe by the validator (as every multi-line composition text must be),
yet it contains a non-printable character, so safe strings are not
confined to printable ASCII plus the allow-list. -/
theorem C9_claim_counterexample :
    contains_non_english_chars "A\nB" = false ∧ claimPrintableSafe "A\nB" = false := by
  decide

/-- C7: `origin_country` substitution trims and upper-cases the origin
code, maps CN to CHINA and VN to VIETNAM, passes any other code through
unchanged, and yields the empty string for empty or whitespace-only
input; e.g. " cn " maps to CHINA and US passes through. -/
theorem C7_origin_country :
    (∀ origin, origin_country_value origin = specOriginCountry origin)
    ∧ origin_country_value " cn " = "CHINA"
    ∧ origin_country_value "US" = "US"
    ∧ origin_country_value "" = ""
    ∧ origin_country_value "   " = ""
    ∧ replace_template_variables "\x7b\x7borigin_country\x7d\x7d" "" "" "" "" " cn " = "CHINA" := by
  refine ⟨?_, by decide, by decide, by decide, by decide, by decide⟩
  intro origin
  simp only [origin_country_value, specOriginCountry]
  by_cases h0 : pyUpper (pyStripS origin) = ""
  · simp [h0]
  · rw [if_neg h0]

/-- C4: substitution of the `code_number` placeholder yields, for a
permit number that is non-empty after trimming, the two adjacent
fragments `REG.NO.` at dy=-8 and `PER.NO.` at dy=16 sharing the x="0"
anchor, and otherwise the single un-offset `REG.NO.` text. -/
theorem C4_code_number :
    (∀ reg per, code_number_content reg per =
      if pyStripS per = "" then "REG.NO." ++ reg
      else "<tspan x=\"0\" dy=\"-8\">" ++ ("REG.NO." ++ reg)
        ++ "</tspan><tspan x=\"0\" dy=\"16\">" ++ ("PER.NO." ++ pyStripS per) ++ "</tspan>")
    ∧ code_number_content "12345" "67"
      = "<tspan x=\"0\" dy=\"-8\">REG.NO.12345</tspan><tspan x=\"0\" dy=\"16\">PER.NO.67</tspan>"
    ∧ code_number_content "12345" "" = "REG.NO.12345"
    ∧ replace_template_variables "\x7b\x7bcode_number\x7d\x7d" "" "12345" "67" "" ""
      = "<tspan x=\"0\" dy=\"-8\">REG.NO.12345</tspan><tspan x=\"0\" dy=\"16\">PER.NO.67</tspan>" := by
  refine ⟨?_, by decide, by decide, by decide⟩
  intro reg per
  by_cases h : pyStripS per = ""
  · simp [code_number_content, h]
  · simp [code_number_content, h]

/-- C8: the filename generator strips the unsafe character set, turns
spaces into underscores and truncates to 50 characters, and the
pipeline names every emitted document by appending `-label2.pdf` to the
sanitized identifier. -/
theorem C8_filename :
    (∀ s, (sanitize_filename s).data.length ≤ 50)
    ∧ (∀ s, (sanitize_filename s).data.all
        (fun c => !(filenameBadChars.contains c) && !(c == ' ')) = true)
    ∧ (∀ t hc cv ncols idx r,
        (processRow t hc cv ncols idx r).1.all
          (fun p => p.1 == sanitize_filename (identifierOf r idx) ++ "-label2.pdf") = true)
    ∧ sanitize_filename "My Product/Name:2024 <v1>" = "My_ProductName2024_v1" := by
  refine ⟨?_, ?_, ?_, by decide⟩
  · intro s
    simp only [sanitize_filename]
    rw [List.length_take]
    exact Nat.min_le_left _ _
  · intro s
    rw [List.all_eq_true]
    intro c hc
    simp only [sanitize_filename] at hc
    have hc' := List.mem_of_mem_take hc
    rw [List.mem_map] at hc'
    obtain ⟨d, hd, rfl⟩ := hc'
    rw [List.mem_filter] at hd
    obtain ⟨-, hg⟩ := hd
    by_cases hsp : d = ' '
    · subst hsp
      decide
    · rw [if_neg hsp]
      simp only [hg, Bool.true_and, Bool.not_eq_true', beq_eq_false_iff_ne, ne_eq]
      exact hsp
  · intro t hc cv ncols idx r
    simp only [processRow]
    repeat' split
    all_goals first | rfl | simp

/-- C5: a row with both required fields present whose composition text
has more than 15 non-blank lines produces no document and exactly the
one warning `<identifier> label is not generated, reason: material text
larger than 15 lines.` -/
theorem C5_line_limit_warning (t : String) (hc : Bool)
    (cv : String → Option (List Nat)) (ncols idx : Nat) (r : List (Option String))
    (hm : cellStr r 1 ≠ "") (hr : cellStr r 2 ≠ "")
    (hl : MAX_MATERIAL_LINES < nonEmptyLineCount (cellStr r 1)) :
    processRow t hc cv ncols idx r
      = ([], [identifierOf r idx
          ++ " label is not generated, reason: material text larger than 15 lines."]) := by
  simp only [processRow]
  rw [if_neg (not_or.mpr ⟨hm, hr⟩), if_pos hl]

theorem C5_line_limit_warning_witness :
    processRow "t" true cvSome7 3 0 row16
      = ([], ["id label is not generated, reason: material text larger than 15 lines."]) :=
  C5_line_limit_warning "t" true cvSome7 3 0 row16 (by decide) (by decide) (by decide)

/-- C6 (amended): a row missing composition text or registration number
produces no document and no warning, on every configuration; and when
the converter is available and succeeds, this is the only path through
the per-row processing that produces neither a document nor a warning.
(When conversion fails or cairosvg is absent, a fully valid row also
produces neither — see the counterexample.) -/
theorem C6_silent_skip :
    (∀ t hc cv ncols idx r, (cellStr r 1 = "" ∨ cellStr r 2 = "") →
      processRow t hc cv ncols idx r = ([], []))
    ∧ (∀ t cv ncols idx r, (∀ s, ∃ bs, cv s = some bs ∧ bs ≠ []) →
      processRow t true cv ncols idx r = ([], []) →
      (cellStr r 1 = "" ∨ cellStr r 2 = "")) := by
  constructor
  · intro t hc cv ncols idx r h
    simp only [processRow]
    rw [if_pos h]
  · intro t cv ncols idx r hconv heq
    by_contra h1
    simp only [processRow] at heq
    rw [if_neg h1] at heq
    by_cases h2 : MAX_MATERIAL_LINES < nonEmptyLineCount (cellStr r 1)
    · rw [if_pos h2] at heq; simp at heq
    · rw [if_neg h2] at heq
      by_cases h3 : contains_non_english_chars (cellStr r 1) = true
      · rw [if_pos h3] at heq; simp at heq
      · rw [if_neg h3] at heq
        by_cases h4 : contains_non_english_chars (cellStr r 2) = true
        · rw [if_pos h4] at heq; simp at heq
        · rw [if_neg h4] at heq
          by_cases h5 : (if 3 < ncols then cellStr r 3 else "") ≠ ""
              ∧ contains_non_english_chars (if 3 < ncols then cellStr r 3 else "") = true
          · rw [if_pos h5] at heq; simp at heq
          · rw [if_neg h5] at heq
            obtain ⟨bs, hbs, hne⟩ := hconv (replace_template_variables t (cellStr r 1)
              (cellStr r 2) (if 3 < ncols then cellStr r 3 else "")
              (if 4 < ncols then cellStr r 4 else "") (if 5 < ncols then cellStr r 5 else ""))
            rw [hbs] at heq
            simp [hne] at heq

theorem C6_silent_skip_witness :
    processRow "t" true cvSome7 3 0 rowMissing = ([], [])
    ∧ (cellStr rowMissing 1 = "" ∨ cellStr rowMissing 2 = "") :=
  ⟨C6_silent_skip.1 "t" true cvSome7 3 0 rowMissing (by decide),
   C6_silent_skip.2 "t" cvSome7 3 0 rowMissing
     (fun _ => ⟨[7], rfl, by decide⟩)
     (C6_silent_skip.1 "t" true cvSome7 3 0 rowMissing (by decide))⟩

/-- C6 counterexample: with a failing converter, a row with both
required fields present also produces neither a document nor a warning,
so the required-field check is not the only warning-less skip path. -/
theorem C6_claim_counterexample :
    processRow "t" true cvNone 3 0 rowValid = ([], [])
    ∧ ¬(cellStr rowValid 1 = "" ∨ cellStr rowValid 2 = "") := by
  decide

/-- C10: a permit number that trims to the empty string substitutes
exactly like an absent permit number. -/
theorem replace_variables_stripped_empty_per (t m r per f o : String)
    (h : pyStripS per = "") :
    replace_template_variables t m r per f o = replace_template_variables t m r "" f o := by
  have h0 : pyStripS "" = "" := rfl
  have hcc : code_number_content r per = code_number_content r "" := by
    simp only [code_number_content, h, h0]
  simp only [replace_template_variables, hcc]

/-- C10: the pipeline applies the non-English validation to the raw,
untrimmed permit number — any non-empty permit cell counts as present
for validation, even a whitespace-only one — while substitution (the
preceding lemma, used as the first conjunct) treats a whitespace-only
permit exactly like an absent one. -/
theorem C10_whitespace_permit :
    (∀ t m r per f o, pyStripS per = "" →
      replace_template_variables t m r per f o = replace_template_variables t m r "" f o)
    ∧ (∀ t hc cv ncols idx row,
        cellStr row 1 ≠ "" → cellStr row 2 ≠ "" →
        ¬(MAX_MATERIAL_LINES < nonEmptyLineCount (cellStr row 1)) →
        contains_non_english_chars (cellStr row 1) = false →
        contains_non_english_chars (cellStr row 2) = false →
        3 < ncols → cellStr row 3 ≠ "" →
        contains_non_english_chars (cellStr row 3) = true →
        processRow t hc cv ncols idx row
          = ([], [identifierOf row idx
              ++ " label is not generated, reason: PER # is not English input."])) := by
  refine ⟨replace_variables_stripped_empty_per, ?_⟩
  intro t hc cv ncols idx row hm hr hl h1 h2 hn hp hbad
  simp only [processRow, if_pos hn]
  rw [if_neg (not_or.mpr ⟨hm, hr⟩), if_neg hl]
  rw [if_neg (by simp [h1]), if_neg (by simp [h2])]
  rw [if_pos ⟨hp, hbad⟩]

theorem C10_whitespace_permit_witness :
    replace_template_variables "\x7b\x7bcode_number\x7d\x7d" "A" "12345" " " "" ""
      = replace_template_variables "\x7b\x7bcode_number\x7d\x7d" "A" "12345" "" "" ""
    ∧ processRow "t" true cvSome7 4 0 rowIdeoPer
      = ([], ["id label is not generated, reason: PER # is not English input."]) :=
  ⟨C10_whitespace_permit.1 _ "A" "12345" " " "" "" (by decide),
   C10_whitespace_permit.2 "t" true cvSome7 4 0 rowIdeoPer (by decide) (by decide)
     (by decide) (by decide) (by decide) (by decide) (by decide) (by decide)⟩

theorem tspanElems_nil (lh : ℚ) (i : Nat) (y : ℚ) : tspanElems lh i y [] = [] := rfl

theorem tspanElems_cons (lh : ℚ) (i : Nat) (y : ℚ) (l : List Char)
    (rest : List (List Char)) :
    tspanElems lh i y (l :: rest)
      = if pyStripL l = [] then tspanElems lh (i + 1) (y + lh) rest
        else ("<tspan x=\"0\" y=\"" ++ (if i = 0 then fmtIntLike y else fmt2 y)
            ++ "\">" ++ String.mk (pyStripL l) ++ "</tspan>")
          :: tspanElems lh (i + 1) (y + lh) rest := rfl

/-- The layout loop started at line index `i` with cursor `i * lh`
produces exactly the spec-side fragments of the enumerated lines. -/
theorem tspanElems_spec (lh : ℚ) :
    ∀ (ls : List (List Char)) (i : Nat),
      tspanElems lh i ((i : ℚ) * lh) ls
        = (List.enumFrom i ls).filterMap (specLayoutFrag lh) := by
  intro ls
  induction ls with
  | nil => intro i; rfl
  | cons l rest ih =>
    intro i
    have hstep : (i : ℚ) * lh + lh = ((i + 1 : ℕ) : ℚ) * lh := by push_cast; ring
    have henum : List.enumFrom i (l :: rest) = (i, l) :: List.enumFrom (i + 1) rest := rfl
    by_cases hb : pyStripL l = []
    · have hfrag : specLayoutFrag lh (i, l) = none := by simp [specLayoutFrag, hb]
      rw [henum, List.filterMap_cons_none hfrag]
      rw [tspanElems_cons, if_pos hb, hstep]
      exact ih (i + 1)
    · have hfrag : specLayoutFrag lh (i, l)
          = some ("<tspan x=\"0\" y=\"" ++ (if i = 0 then "0" else fmt2 ((i : ℚ) * lh))
              ++ "\">" ++ String.mk (pyStripL l) ++ "</tspan>") := by
        simp [specLayoutFrag, hb]
      rw [henum, List.filterMap_cons_some hfrag]
      rw [tspanElems_cons, if_neg hb, hstep, ih (i + 1)]
      by_cases hi : i = 0
      · subst hi
        simp [show fmtIntLike 0 = "0" from by decide]
      · simp only [if_neg hi]

/-- The layout engine, restated: normalize the escapes and newlines,
then each non-blank line `i` yields one centered fragment. -/
theorem create_centered_spec (text : String) (lh : ℚ) :
    create_centered_tspan_elements text lh
      = String.join ((List.enum (pyLines text)).filterMap (specLayoutFrag lh)) := by
  have h0 : ((0 : ℕ) : ℚ) * lh = 0 := by push_cast; ring
  rw [create_centered_tspan_elements, ← h0, tspanElems_spec lh (pyLines text) 0]
  rfl

theorem fmt2_eq_1599 (q : ℚ) (hq : q = 1599 / 100) : fmt2 q = "15.99" := by
  subst hq
  simp only [fmt2]
  rw [if_neg (show ¬((1599 : ℚ) / 100 < 0) by norm_num)]
  rw [abs_of_nonneg (show (0 : ℚ) ≤ 1599 / 100 by norm_num)]
  rw [show ((1599 : ℚ) / 100 * 100 + 1 / 2) = 3199 / 2 from by norm_num]
  rw [show ⌊(3199 : ℚ) / 2⌋ = 1599 from by norm_num [Int.floor_eq_iff]]
  decide

/-- C3 (amended): the layout engine normalizes literal backslash-n
escapes and newlines, trims each line, advances the cursor by the line
height for every line including blank ones, and emits one fragment per
non-blank line; the fragment of line index 0 (offset always 0) is
integer-formatted while fragments of all later lines carry 2-decimal
offsets; "A\\nB" at line height 15.99 yields offsets 0 and 15.99. -/
theorem C3_layout :
    (∀ (text : String) (lh : ℚ),
      create_centered_tspan_elements text lh
        = String.join ((List.enum (pyLines text)).filterMap (specLayoutFrag lh)))
    ∧ create_centered_tspan_elements "A\\nB" ((1599 : ℚ) / 100)
      = "<tspan x=\"0\" y=\"0\">A</tspan><tspan x=\"0\" y=\"15.99\">B</tspan>" := by
  refine ⟨create_centered_spec, ?_⟩
  rw [create_centered_spec]
  rw [show pyLines "A\\nB" = [['A'], ['B']] from by decide]
  have f0 : specLayoutFrag ((1599 : ℚ) / 100) (0, ['A'])
      = some "<tspan x=\"0\" y=\"0\">A</tspan>" := by decide
  have f1 : specLayoutFrag ((1599 : ℚ) / 100) (1, ['B'])
      = some "<tspan x=\"0\" y=\"15.99\">B</tspan>" := by
    simp only [specLayoutFrag]
    rw [if_neg (show ¬(pyStripL ['B'] = []) from by decide)]
    rw [if_neg (show ¬((1, ['B']) : Nat × List Char).1 = 0 from by decide)]
    rw [fmt2_eq_1599 _ (by push_cast; ring)]
    decide
  rw [show List.enum [['A'], ['B']] = [(0, ['A']), (1, ['B'])] from by decide]
  rw [List.filterMap_cons_some f0, List.filterMap_cons_some f1, List.filterMap_nil]
  decide

/-- C3 counterexample: for the input "\nB" (blank first line) at line
height 15.99 the single — hence first — emitted fragment carries the
2-decimal offset "15.99", not an integer-formatted offset, refuting the
claim's "first emitted fragment" formatting rule (the integer format is
tied to line index 0, not to the first emitted fragment). -/
theorem C3_claim_counterexample :
    claimC3FormatsOk "\nB" ((1599 : ℚ) / 100) = false
    ∧ tspanElems ((1599 : ℚ) / 100) 0 0 (pyLines "\nB")
      = ["<tspan x=\"0\" y=\"15.99\">B</tspan>"] := by
  have hts : tspanElems ((1599 : ℚ) / 100) 0 0 (pyLines "\nB")
      = ["<tspan x=\"0\" y=\"15.99\">B</tspan>"] := by
    rw [show pyLines "\nB" = [[], ['B']] from by decide]
    rw [tspanElems_cons, if_pos (show pyStripL [] = [] from rfl)]
    rw [tspanElems_cons, if_neg (show ¬(pyStripL ['B'] = []) from by decide)]
    rw [tspanElems_nil]
    rw [if_neg (show ¬((0 : ℕ) + 1 = 0) from by decide)]
    rw [fmt2_eq_1599 ((0 : ℚ) + (1599 : ℚ) / 100) (by norm_num)]
    decide
  refine ⟨?_, hts⟩
  unfold claimC3FormatsOk
  rw [hts]
  decide

/-- When the converter is available and returns non-empty bytes, each
row contributes exactly one output — a document or a warning — iff both
required fields are non-empty, and nothing otherwise. -/
theorem processRow_doc_warn_count (t : String) (cv : String → Option (List Nat))
    (hconv : ∀ s, ∃ bs, cv s = some bs ∧ bs ≠ []) (ncols idx : Nat)
    (r : List (Option String)) :
    (processRow t true cv ncols idx r).1.length
      + (processRow t true cv ncols idx r).2.length
      = if cellStr r 1 = "" ∨ cellStr r 2 = "" then 0 else 1 := by
  by_cases h1 : cellStr r 1 = "" ∨ cellStr r 2 = ""
  · simp only [processRow, if_pos h1]
    rfl
  · simp only [processRow, if_neg h1]
    by_cases h2 : MAX_MATERIAL_LINES < nonEmptyLineCount (cellStr r 1)
    · simp only [if_pos h2]; rfl
    · simp only [if_neg h2]
      by_cases h3 : contains_non_english_chars (cellStr r 1) = true
      · simp only [if_pos h3]; rfl
      · simp only [if_neg h3]
        by_cases h4 : contains_non_english_chars (cellStr r 2) = true
        · simp only [if_pos h4]; rfl
        · simp only [if_neg h4]
          by_cases h5 : (if 3 < ncols then cellStr r 3 else "") ≠ ""
              ∧ contains_non_english_chars (if 3 < ncols then cellStr r 3 else "") = true
          · simp only [if_pos h5]; rfl
          · simp only [if_neg h5]
            obtain ⟨bs, hbs, hne⟩ := hconv (replace_template_variables t (cellStr r 1)
              (cellStr r 2) (if 3 < ncols then cellStr r 3 else "")
              (if 4 < ncols then cellStr r 4 else "") (if 5 < ncols then cellStr r 5 else ""))
            rw [hbs]
            simp [hne]

/-- Summing the per-row counts over the loop. -/
theorem genRows_count (t : String) (cv : String → Option (List Nat))
    (hconv : ∀ s, ∃ bs, cv s = some bs ∧ bs ≠ []) (ncols : Nat) :
    ∀ (rows : List (List (Option String))) (idx : Nat),
      (genRows t true cv ncols idx rows).1.length
        + (genRows t true cv ncols idx rows).2.length
        = (rows.filter (fun r => !(cellStr r 1 == "") && !(cellStr r 2 == ""))).length := by
  intro rows
  induction rows with
  | nil => intro idx; rfl
  | cons r rest ih =>
    intro idx
    simp only [genRows, List.filter_cons, List.length_append]
    have hrow := processRow_doc_warn_count t cv hconv ncols idx r
    have hrest := ih (idx + 1)
    by_cases h1 : cellStr r 1 = "" ∨ cellStr r 2 = ""
    · rw [if_pos h1] at hrow
      have hb : (!(cellStr r 1 == "") && !(cellStr r 2 == "")) = false := by
        rcases h1 with h | h <;> simp [h]
      rw [hb]
      simp only [Bool.false_eq_true, if_false]
      omega
    · rw [if_neg h1] at hrow
      rw [not_or] at h1
      have hb : (!(cellStr r 1 == "") && !(cellStr r 2 == "")) = true := by
        simp [h1.1, h1.2]
      rw [hb]
      simp only [if_true, List.length_cons]
      omega

/-- C1 (amended): provided the document converter is available and
returns non-empty bytes for every rendered template, the number of
documents plus the number of warnings equals the number of rows with
both `compositionText` and `registrationNumber` non-empty, and a row
missing either required field contributes neither a document nor a
warning.  (When conversion fails or cairosvg is absent, an otherwise
valid row contributes nothing at all — see the counterexample.) -/
theorem C1_docs_plus_warnings (t : String) (df : DataFrame)
    (cv : String → Option (List Nat))
    (hconv : ∀ s, ∃ bs, cv s = some bs ∧ bs ≠ []) :
    (generate_label2_from_dataframe t df true cv).1.length
      + (generate_label2_from_dataframe t df true cv).2.length = countValidRows df
    ∧ (∀ idx r, (cellStr r 1 = "" ∨ cellStr r 2 = "") →
        processRow t true cv df.ncols idx r = ([], [])) := by
  constructor
  · exact genRows_count t cv hconv df.ncols df.rows 0
  · intro idx r h
    simp only [processRow]
    rw [if_pos h]

theorem C1_docs_plus_warnings_witness :
    (generate_label2_from_dataframe "t" dfMixed true cvSome7).1.length
      + (generate_label2_from_dataframe "t" dfMixed true cvSome7).2.length
      = countValidRows dfMixed
    ∧ processRow "t" true cvSome7 dfMixed.ncols 1 rowMissing = ([], []) :=
  ⟨(C1_docs_plus_warnings "t" dfMixed cvSome7 (fun _ => ⟨[7], rfl, by decide⟩)).1,
   (C1_docs_plus_warnings "t" dfMixed cvSome7 (fun _ => ⟨[7], rfl, by decide⟩)).2 1
     rowMissing (by decide)⟩

/-- C1 counterexample: when every conversion fails, a dataset with one
fully valid row yields zero documents and zero warnings, so the claimed
unconditional equality fails. -/
theorem C1_claim_counterexample :
    ¬((generate_label2_from_dataframe "t" dfValid1 true cvNone).1.length
      + (generate_label2_from_dataframe "t" dfValid1 true cvNone).2.length
      = countValidRows dfValid1) := by
  decide
